import Mathlib

/-!
Shallow embedding of the conversation/session state machine of the
Policy-AI-Agent frontend.

The embedded code:
* `FinalApp` in `src/frontend/src/SimpleApp.js` (the conversation-aware
  variant): `handleAsk`, `handleAnalyze`, `loadConversationMessages`,
  `handleConversationSelect` and the `useEffect` that reloads messages
  when the active conversation changes;
* `ConversationSidebar` in `src/unnamed/part_001`: `loadConversations`,
  `createNewConversation`, `deleteConversation`,
  `updateConversationTitle`, `handleTitleSave`;
* the single-answer-box `App` in `src/unnamed/part_003`: `handleAnalyze`
  (the variant that targets the `/analyze` endpoint).

React's `setX(prev => ...)` functional updates are modelled as pure
functions on an explicit state record; an async handler is modelled as a
function from the pre-state and the eventual network outcome to the
post-state.  The statement sequence a handler executes is additionally
reified as a `Step` list so that ordering claims (placeholder append
happens-before resolution) are about the program's own event order.
-/

/-- A chat message as stored in `conversationMessages`:
`{ question, answer, task_type, timestamp }`. -/
structure Message where
  question : String
  answer : String
  task_type : String
  timestamp : String
  deriving Repr, DecidableEq

/-- A conversation row as returned by `GET /conversations`. -/
structure Conversation where
  id : String
  title : String
  message_count : Nat
  updated_at : String
  deriving Repr, DecidableEq

/-- An entry of the unfiled `history` list:
`{ id: Date.now(), question, answer }`. -/
structure HistoryEntry where
  id : Nat
  question : String
  answer : String
  deriving Repr, DecidableEq

/-- The error object visible in a `catch (err)` block:
`err.response?.data?.detail` (absent when there is no backend response
body) and `err.message` (the raw transport error text). -/
structure AxiosError where
  detail : Option String
  message : String
  deriving Repr, DecidableEq

/-- Outcome of an awaited axios call: a 2xx response carrying parsed
data, or a thrown error. -/
inductive AxiosResult (α : Type) where
  | ok : α → AxiosResult α
  | err : AxiosError → AxiosResult α
  deriving Repr, DecidableEq

/-- JavaScript `a || b` on strings: the empty string is falsy. -/
def jsOr (a b : String) : String := if a = "" then b else a

/-- JavaScript `s.trim()`: strip leading and trailing whitespace.
Implemented structurally on the character list so that it evaluates
inside the kernel. -/
def jsTrim (s : String) : String :=
  String.mk (((s.data.dropWhile Char.isWhitespace).reverse.dropWhile Char.isWhitespace).reverse)

/-- The combined React state of `FinalApp` and its `ConversationSidebar`
child, restricted to the variables the conversation state machine
touches. -/
structure AppState where
  question : String
  documentId : String
  asking : Bool
  analyzing : Bool
  history : List HistoryEntry
  activeConversationId : Option String
  conversationMessages : List Message
  conversations : List Conversation
  loading : Bool
  showModal : Bool
  editingId : Option String
  newTitle : String
  deriving Repr, DecidableEq

/-- The placeholder message appended by `handleAsk` in conversation
mode: `{ question, answer: "⏳ Processing...", task_type: "unknown",
timestamp: new Date().toISOString() }`. -/
def processingPlaceholder (q ts : String) : Message :=
  { question := q, answer := "⏳ Processing...", task_type := "unknown", timestamp := ts }

/-- `prev.map((msg, index) => index === prev.length - 1
? { ...msg, answer, task_type, timestamp } : msg)` — the success
resolution of `handleAsk` in conversation mode. -/
def resolveLastMessage (msgs : List Message) (ans tt ts : String) : List Message :=
  msgs.mapIdx (fun i msg =>
    if i + 1 = msgs.length then { msg with answer := ans, task_type := tt, timestamp := ts }
    else msg)

/-- `prev.map((msg, index) => index === prev.length - 1
? { ...msg, answer: res.data.answer, task_type: res.data.task_type }
: msg)` — the success resolution of `handleAnalyze` in conversation
mode (no timestamp update). -/
def resolveLastMessageAnalysis (msgs : List Message) (ans tt : String) : List Message :=
  msgs.mapIdx (fun i msg =>
    if i + 1 = msgs.length then { msg with answer := ans, task_type := tt }
    else msg)

/-- `prev.map((msg, index) => index === prev.length - 1
? { ...msg, answer: errorMessage } : msg)` — the failure resolution in
conversation mode. -/
def resolveLastMessageError (msgs : List Message) (ans : String) : List Message :=
  msgs.mapIdx (fun i msg =>
    if i + 1 = msgs.length then { msg with answer := ans } else msg)

/-- `prev.map(h => h.id === entryId ? { ...h, answer } : h)` — the
resolution of an unfiled `history` entry, keyed by its `Date.now()`
id. -/
def resolveHistoryEntry (hs : List HistoryEntry) (eid : Nat) (ans : String) : List HistoryEntry :=
  hs.map (fun h => if h.id = eid then { h with answer := ans } else h)

/-- The endpoint `handleAsk` (and `FinalApp`'s `handleAnalyze`) posts
to: conversation-scoped when a conversation is active, stateless
otherwise. -/
def queryEndpoint : Option String → String
  | some cid => "http://localhost:8001/query/" ++ cid
  | none => "http://localhost:8001/query"

/-- Body of a `POST /query` or `POST /query/{id}` request. -/
structure QueryRequest where
  question : String
  document_id : String
  document_type : String
  deriving Repr, DecidableEq

/-- Success body of a query response. -/
structure QueryResponse where
  answer : String
  task_type : String
  deriving Repr, DecidableEq

/-- `"❌ Error: " + (err.response?.data?.detail || err.message)` —
the error string `handleAsk` writes into the placeholder. -/
def formatQueryError (e : AxiosError) : String :=
  "❌ Error: " ++ jsOr (e.detail.getD "") e.message

/-- `"❌ Analysis failed: " + (err.response?.data?.detail ||
err.message)` — the error string `handleAnalyze` writes into the
placeholder. -/
def formatAnalyzeError (e : AxiosError) : String :=
  "❌ Analysis failed: " ++ jsOr (e.detail.getD "") e.message

/-- One statement of an async handler, as it acts on the React state.
`post` records that a network request was issued (it does not itself
change client state). -/
inductive Step where
  | setAsking (b : Bool)
  | setAnalyzing (b : Bool)
  | appendConvMessage (m : Message)
  | appendHistory (e : HistoryEntry)
  | clearQuestion
  | post (endpoint : String) (body : QueryRequest)
  | resolveConvSuccess (ans tt ts : String)
  | resolveConvAnalysisSuccess (ans tt : String)
  | resolveConvError (ans : String)
  | resolveHistory (eid : Nat) (ans : String)
  deriving Repr, DecidableEq

/-- Whether a step is the issuing of a network request. -/
def Step.isPost : Step → Bool
  | .post _ _ => true
  | _ => false

/-- Effect of one `Step` on the React state. -/
def runStep (s : AppState) : Step → AppState
  | .setAsking b => { s with asking := b }
  | .setAnalyzing b => { s with analyzing := b }
  | .appendConvMessage m =>
      { s with conversationMessages := s.conversationMessages ++ [m] }
  | .appendHistory e => { s with history := s.history ++ [e] }
  | .clearQuestion => { s with question := "" }
  | .post _ _ => s
  | .resolveConvSuccess a tt ts =>
      { s with conversationMessages := resolveLastMessage s.conversationMessages a tt ts }
  | .resolveConvAnalysisSuccess a tt =>
      { s with conversationMessages := resolveLastMessageAnalysis s.conversationMessages a tt }
  | .resolveConvError a =>
      { s with conversationMessages := resolveLastMessageError s.conversationMessages a }
  | .resolveHistory eid a =>
      { s with history := resolveHistoryEntry s.history eid a }

/-- Run a handler's statement sequence in order. -/
def runSteps (s : AppState) (steps : List Step) : AppState :=
  steps.foldl runStep s

/-- The statement sequence of `handleAsk` (lines 350-417 of
`SimpleApp.js`), given the pre-state, the `Date.now()` value used for
the unfiled entry id, the two `new Date().toISOString()` values
(placeholder and resolution timestamps) and the network outcome.
Guard: `if (!question || !documentId) return;`.  The request body uses
the `question` captured before `setQuestion("")`. -/
def handleAskSteps (s : AppState) (nowId : Nat) (ts rts : String)
    (r : AxiosResult QueryResponse) : List Step :=
  if s.question = "" ∨ s.documentId = "" then []
  else
    [Step.setAsking true]
    ++ (match s.activeConversationId with
        | some _ => [Step.appendConvMessage (processingPlaceholder s.question ts)]
        | none => [Step.appendHistory { id := nowId, question := s.question,
                                        answer := "⏳ Processing..." }])
    ++ [Step.clearQuestion,
        Step.post (queryEndpoint s.activeConversationId)
          { question := s.question, document_id := s.documentId, document_type := "general" }]
    ++ (match s.activeConversationId, r with
        | some _, .ok d => [Step.resolveConvSuccess d.answer d.task_type rts]
        | some _, .err e => [Step.resolveConvError (formatQueryError e)]
        | none, .ok d => [Step.resolveHistory nowId d.answer]
        | none, .err e => [Step.resolveHistory nowId (formatQueryError e)])
    ++ [Step.setAsking false]

/-- `handleAsk` as a state transformer: run its statement sequence. -/
def handleAsk (s : AppState) (nowId : Nat) (ts rts : String)
    (r : AxiosResult QueryResponse) : AppState :=
  runSteps s (handleAskSteps s nowId ts rts r)

/-- The statement sequence of `FinalApp`'s `handleAnalyze` (lines
420-488 of `SimpleApp.js`).  Guard: `if (!documentId) return;`.  It
posts the fixed question to the same `queryEndpoint` as `handleAsk`. -/
def handleAnalyzeSteps (s : AppState) (nowId : Nat) (ts : String)
    (r : AxiosResult QueryResponse) : List Step :=
  if s.documentId = "" then []
  else
    [Step.setAnalyzing true]
    ++ (match s.activeConversationId with
        | some _ => [Step.appendConvMessage
            { question := "🔍 Comprehensive Analysis", answer := "⏳ Analyzing document...",
              task_type := "analysis", timestamp := ts }]
        | none => [Step.appendHistory { id := nowId, question := "🔍 Comprehensive Analysis",
                                        answer := "⏳ Analyzing document..." }])
    ++ [Step.post (queryEndpoint s.activeConversationId)
          { question := "Provide a comprehensive analysis of this document",
            document_id := s.documentId, document_type := "general" }]
    ++ (match s.activeConversationId, r with
        | some _, .ok d => [Step.resolveConvAnalysisSuccess d.answer d.task_type]
        | some _, .err e => [Step.resolveConvError (formatAnalyzeError e)]
        | none, .ok d => [Step.resolveHistory nowId d.answer]
        | none, .err e => [Step.resolveHistory nowId (formatAnalyzeError e)])
    ++ [Step.setAnalyzing false]

/-- `FinalApp.handleAnalyze` as a state transformer. -/
def handleAnalyze (s : AppState) (nowId : Nat) (ts : String)
    (r : AxiosResult QueryResponse) : AppState :=
  runSteps s (handleAnalyzeSteps s nowId ts r)

/-- Success body of `GET /conversations/{id}`:
`{status, messages}`. -/
structure MessagesResponse where
  status : String
  messages : List Message
  deriving Repr, DecidableEq

/-- `loadConversationMessages` (lines 307-316 of `SimpleApp.js`):
replaces `conversationMessages` wholesale, but only when the 2xx body
has `status === "success"`; a thrown error only logs. -/
def loadConversationMessages (s : AppState) (r : AxiosResult MessagesResponse) : AppState :=
  match r with
  | .ok d => if d.status = "success" then { s with conversationMessages := d.messages } else s
  | .err _ => s

/-- Clearing the active selection: `handleConversationSelect(null)`
(`setActiveConversationId(null); setHistory([])`) followed by the
`useEffect` on `activeConversationId`, whose null branch runs
`setConversationMessages([])`. -/
def clearActiveSelection (s : AppState) : AppState :=
  { s with activeConversationId := none, history := [], conversationMessages := [] }

/-- `handleConversationSelect(cid)` together with the `useEffect` on
`activeConversationId` (lines 299-305 of `SimpleApp.js`): the spec's
`setActive`.  A non-null id triggers `loadConversationMessages` with
network outcome `r`; null resets the active messages. -/
def handleConversationSelect (s : AppState) (cid : Option String)
    (r : AxiosResult MessagesResponse) : AppState :=
  match cid with
  | some c => loadConversationMessages
      { s with activeConversationId := some c, history := [] } r
  | none => clearActiveSelection s

/-- Success body of `GET /conversations`. -/
structure ConversationsResponse where
  status : String
  conversations : List Conversation
  deriving Repr, DecidableEq

/-- Body of `POST /conversations`. -/
structure CreateRequest where
  title : String
  document_type : String
  deriving Repr, DecidableEq

/-- Success body of `POST /conversations`. -/
structure CreateResponse where
  status : String
  conversation : Conversation
  deriving Repr, DecidableEq

/-- Body of `PUT /conversations/{id}`. -/
structure TitleRequest where
  title : String
  deriving Repr, DecidableEq

/-- `loadConversations` of `ConversationSidebar`: replaces the list
only on `status === "success"`; the `finally` block always runs
`setLoading(false)`. -/
def loadConversations (s : AppState) (r : AxiosResult ConversationsResponse) : AppState :=
  let s1 := match r with
    | .ok d => if d.status = "success" then { s with conversations := d.conversations } else s
    | .err _ => s
  { s1 with loading := false }

/-- `createNewConversation` of `ConversationSidebar` (lines 34-54 of
`part_001`).  Returns the POST request issued, if any, and the
post-state.  `if (!newTitle.trim()) return;` guards before the network
call; on `status === "success"` it inserts at the head, closes the
modal, clears the input, and via `onNewConversation` /
`onConversationSelect` makes the new conversation active (clearing
`history` and `conversationMessages`). -/
def createNewConversation (s : AppState) (r : AxiosResult CreateResponse) :
    Option CreateRequest × AppState :=
  if jsTrim s.newTitle = "" then (none, s)
  else
    let req : CreateRequest := { title := s.newTitle, document_type := "general" }
    match r with
    | .ok d =>
        if d.status = "success" then
          (some req,
            { s with conversations := d.conversation :: s.conversations,
                     showModal := false, newTitle := "",
                     activeConversationId := some d.conversation.id,
                     history := [], conversationMessages := [] })
        else (some req, s)
    | .err _ => (some req, s)

/-- `deleteConversation` of `ConversationSidebar` (lines 56-71 of
`part_001`), with the `FinalApp` effect of `onConversationSelect(null)`
folded in via `clearActiveSelection`.  `confirmed` is the
`window.confirm` outcome; a thrown DELETE only logs. -/
def deleteConversation (s : AppState) (confirmed : Bool) (cid : String)
    (r : AxiosResult Unit) : AppState :=
  if !confirmed then s
  else
    match r with
    | .err _ => s
    | .ok _ =>
        let s1 := { s with conversations := s.conversations.filter (fun c => c.id ≠ cid) }
        if s.activeConversationId = some cid then clearActiveSelection s1 else s1

/-- `updateConversationTitle` of `ConversationSidebar` (lines 73-86 of
`part_001`): on a successful PUT, patches the title of the conversation
with that id in place and leaves edit mode; a thrown PUT only logs. -/
def updateConversationTitle (s : AppState) (cid title : String)
    (r : AxiosResult Unit) : AppState :=
  match r with
  | .err _ => s
  | .ok _ =>
      { s with
        conversations :=
          s.conversations.map (fun c => if c.id = cid then { c with title := title } else c),
        editingId := none }

/-- `handleTitleSave` of `ConversationSidebar` (lines 105-112 of
`part_001`): with a non-empty trimmed `newTitle` it calls
`updateConversationTitle(cid, newTitle.trim())` (returning the PUT
request issued), otherwise it just leaves edit mode; either way
`setNewTitle("")` runs. -/
def handleTitleSave (s : AppState) (cid : String) (r : AxiosResult Unit) :
    Option TitleRequest × AppState :=
  if jsTrim s.newTitle ≠ "" then
    (some { title := jsTrim s.newTitle },
      { updateConversationTitle s cid (jsTrim s.newTitle) r with newTitle := "" })
  else
    (none, { s with editingId := none, newTitle := "" })

/-- Interleaving model for conversation-mode exchanges: the two
functional updates an exchange applies to `conversationMessages`, in
the order React processes them.  Each exchange contributes its
`submit` (placeholder append) before its `resolveOk`/`resolveErr`;
distinct exchanges may interleave. -/
inductive ExchEvent where
  | submit (q ts : String)
  | resolveOk (ans tt ts : String)
  | resolveErr (ans : String)
  deriving Repr, DecidableEq

/-- Effect of one exchange event on the message thread, exactly the
updates `handleAsk` enqueues. -/
def applyExchEvent (msgs : List Message) : ExchEvent → List Message
  | .submit q ts => msgs ++ [processingPlaceholder q ts]
  | .resolveOk a tt ts => resolveLastMessage msgs a tt ts
  | .resolveErr a => resolveLastMessageError msgs a

/-- Run an interleaving of exchange events. -/
def runExch (msgs : List Message) (es : List ExchEvent) : List Message :=
  es.foldl applyExchEvent msgs

/-- Body of `POST /analyze` in the `part_003` variant: `{ policy_id }`
— no question string at all. -/
structure AnalyzeRequest where
  policy_id : String
  deriving Repr, DecidableEq

/-- Success body of `POST /analyze`. -/
structure AnalyzeResponse where
  answer : String
  task_type : String
  original_sections : Option (List String)
  deriving Repr, DecidableEq

/-- State of the `part_003` single-answer-box `App`. -/
structure PolicyAppState where
  answer : String
  originalSections : List String
  taskType : String
  policyId : String
  analyzing : Bool
  deriving Repr, DecidableEq

/-- `handleAnalyze` of the `part_003` `App` (lines 62-78): posts
`{ policy_id }` to `http://localhost:8001/analyze` after setting the
single `answer` box to a progress sentinel.  Returns the endpoint and
request issued, if any, and the post-state. -/
def appHandleAnalyze (s : PolicyAppState) (r : AxiosResult AnalyzeResponse) :
    Option (String × AnalyzeRequest) × PolicyAppState :=
  if s.policyId = "" then (none, s)
  else
    let s1 := { s with analyzing := true, answer := "Analyzing your policy document..." }
    let s2 := match r with
      | .ok d => { s1 with answer := d.answer,
                           originalSections := d.original_sections.getD [],
                           taskType := d.task_type }
      | .err e => { s1 with answer := "Analysis failed: " ++ jsOr (e.detail.getD "") e.message,
                            originalSections := [] }
    (some ("http://localhost:8001/analyze", { policy_id := s.policyId }), { s2 with analyzing := false })

/-! ## Concrete states used by witnesses and counterexamples -/

/-- A sample backend conversation row. -/
def sampleConv : Conversation :=
  { id := "c1", title := "Lab Results", message_count := 0,
    updated_at := "2025-01-01T00:00:00Z" }

/-- A reachable UI state: one conversation loaded and active, a document
uploaded, a question typed in the composer, a title typed in the modal. -/
def baseState : AppState :=
  { question := "What are my results?", documentId := "doc1", asking := false,
    analyzing := false, history := [], activeConversationId := some "c1",
    conversationMessages := [], conversations := [sampleConv], loading := false,
    showModal := true, editingId := some "c1", newTitle := "Lab Notes" }

/-! ## Helper lemmas -/

/-- Patching the positionally last element of `xs ++ [m]` rewrites `m`
and leaves `xs` untouched. -/
theorem mapIdx_lastPatch_concat {α : Type} (g : α → α) (xs : List α) (m : α) :
    List.mapIdx (fun i x => if i + 1 = xs.length + 1 then g x else x) (xs ++ [m])
      = xs ++ [g m] := by
  rw [List.mapIdx_append_one]
  have h1 : List.mapIdx (fun i x => if i + 1 = xs.length + 1 then g x else x) xs = xs := by
    apply List.ext_get (by simp)
    intro n hn1 hn2
    rw [List.get_mapIdx xs _ n hn2]
    have hne : n + 1 ≠ xs.length + 1 := by omega
    rw [if_neg hne]
  rw [h1]
  simp

/-- `resolveLastMessage` on a thread ending in the freshly appended
placeholder resolves exactly that placeholder. -/
theorem resolveLastMessage_concat (xs : List Message) (m : Message) (a tt ts : String) :
    resolveLastMessage (xs ++ [m]) a tt ts =
      xs ++ [{ m with answer := a, task_type := tt, timestamp := ts }] := by
  unfold resolveLastMessage
  have hlen : (xs ++ [m]).length = xs.length + 1 := by simp
  simp only [hlen]
  exact mapIdx_lastPatch_concat _ xs m

/-- Failure-path analogue of `resolveLastMessage_concat`. -/
theorem resolveLastMessageError_concat (xs : List Message) (m : Message) (a : String) :
    resolveLastMessageError (xs ++ [m]) a = xs ++ [{ m with answer := a }] := by
  unfold resolveLastMessageError
  have hlen : (xs ++ [m]).length = xs.length + 1 := by simp
  simp only [hlen]
  exact mapIdx_lastPatch_concat _ xs m

/-- Analysis-path analogue of `resolveLastMessage_concat`. -/
theorem resolveLastMessageAnalysis_concat (xs : List Message) (m : Message) (a tt : String) :
    resolveLastMessageAnalysis (xs ++ [m]) a tt = xs ++ [{ m with answer := a, task_type := tt }] := by
  unfold resolveLastMessageAnalysis
  have hlen : (xs ++ [m]).length = xs.length + 1 := by simp
  simp only [hlen]
  exact mapIdx_lastPatch_concat _ xs m

/-- Success resolution never changes any `question` field. -/
theorem resolveLastMessage_map_question (msgs : List Message) (a tt ts : String) :
    (resolveLastMessage msgs a tt ts).map Message.question = msgs.map Message.question := by
  unfold resolveLastMessage
  apply List.ext_get (by simp)
  intro n hn1 hn2
  have hlt : n < msgs.length := by simpa using hn2
  rw [List.get_map, List.get_map, List.get_mapIdx msgs _ n hlt]
  split <;> rfl

/-- Failure resolution never changes any `question` field. -/
theorem resolveLastMessageError_map_question (msgs : List Message) (a : String) :
    (resolveLastMessageError msgs a).map Message.question = msgs.map Message.question := by
  unfold resolveLastMessageError
  apply List.ext_get (by simp)
  intro n hn1 hn2
  have hlt : n < msgs.length := by simpa using hn2
  rw [List.get_map, List.get_map, List.get_mapIdx msgs _ n hlt]
  split <;> rfl

/-- Resolving a history entry by a fresh id (one no earlier entry
carries — `Date.now()` of the new entry) patches exactly the appended
entry. -/
theorem resolveHistoryEntry_concat (hs : List HistoryEntry) (m : HistoryEntry) (a : String)
    (hfresh : ∀ h ∈ hs, h.id ≠ m.id) :
    resolveHistoryEntry (hs ++ [m]) m.id a = hs ++ [{ m with answer := a }] := by
  unfold resolveHistoryEntry
  rw [List.map_append]
  congr 1
  · have hid : ∀ h ∈ hs,
        (fun h => if h.id = m.id then { h with answer := a } else h) h = id h := by
      intro h hh
      simp [hfresh h hh]
    rw [List.map_congr_left hid, List.map_id]
  · simp

/-! ## Claim theorems -/

/-- C1, counterexample.  Interleaving with two exchanges in flight in
conversation mode (reachable e.g. by starting `handleAnalyze` while a
`handleAsk` is outstanding): submit q1, submit q2, resolve exchange 1,
resolve exchange 2.  Exchange 1's resolution lands on exchange 2's
placeholder (the message with question `q2` receives answer `a1`), and
after both resolutions the message appended for exchange 1 still holds
the processing placeholder — overwritten zero times — while exchange
2's message was overwritten twice.  This refutes, at this input, that
the appended message's answer is overwritten exactly once and that
resolution targets the exchange just submitted. -/
theorem positional_resolution_crosses_exchanges :
    runExch [] [ExchEvent.submit "q1" "t1", ExchEvent.submit "q2" "t2",
                ExchEvent.resolveOk "a1" "translation" "t3"]
      = [processingPlaceholder "q1" "t1",
         { question := "q2", answer := "a1", task_type := "translation", timestamp := "t3" }]
    ∧ runExch [] [ExchEvent.submit "q1" "t1", ExchEvent.submit "q2" "t2",
                  ExchEvent.resolveOk "a1" "translation" "t3",
                  ExchEvent.resolveOk "a2" "compliance" "t4"]
      = [processingPlaceholder "q1" "t1",
         { question := "q2", answer := "a2", task_type := "compliance", timestamp := "t4" }] := by
  constructor <;> rfl

/-- C1 (amended): when an exchange's resolution arrives while its
placeholder is still the last message of the thread — in particular in
every sequential interleaving — the resolution overwrites exactly the
just-submitted placeholder's `answer`/`task_type`/`timestamp` once,
leaving every earlier message untouched; and in every interleaving,
success or failure resolution never changes any message's `question`. -/
theorem handleAsk_sequential_resolution_exact :
    (∀ (msgs : List Message) (q ts a tt ts2 : String),
       runExch msgs [ExchEvent.submit q ts, ExchEvent.resolveOk a tt ts2]
         = msgs ++ [{ question := q, answer := a, task_type := tt, timestamp := ts2 }])
    ∧ (∀ (msgs : List Message) (q ts a : String),
       runExch msgs [ExchEvent.submit q ts, ExchEvent.resolveErr a]
         = msgs ++ [{ question := q, answer := a, task_type := "unknown", timestamp := ts }])
    ∧ (∀ (msgs : List Message) (a tt ts : String),
       (resolveLastMessage msgs a tt ts).map Message.question = msgs.map Message.question)
    ∧ (∀ (msgs : List Message) (a : String),
       (resolveLastMessageError msgs a).map Message.question = msgs.map Message.question) := by
  refine ⟨?_, ?_, ?_, ?_⟩
  · intro msgs q ts a tt ts2
    show resolveLastMessage (msgs ++ [processingPlaceholder q ts]) a tt ts2 = _
    rw [resolveLastMessage_concat]
    rfl
  · intro msgs q ts a
    show resolveLastMessageError (msgs ++ [processingPlaceholder q ts]) a = _
    rw [resolveLastMessageError_concat]
    rfl
  · exact resolveLastMessage_map_question
  · exact resolveLastMessageError_map_question

/-- C2: for every submitted exchange (non-empty question, known
document id), in both routing modes, `handleAsk` runs exactly the
statement sequence below: the placeholder append is step 1 and the
composer clear is step 2, both strictly before the network request
(step 3) and the resolution (step 4); and the state at the moment the
request is issued (after the first four steps) already shows the
placeholder in the active thread — `conversationMessages` when a
conversation is active, the unfiled `history` otherwise — and an empty
composer. -/
theorem handleAsk_placeholder_before_resolution (s : AppState) (nowId : Nat)
    (ts rts : String) (r : AxiosResult QueryResponse)
    (hq : s.question ≠ "") (hd : s.documentId ≠ "") :
    (∀ cid : String, s.activeConversationId = some cid →
      handleAskSteps s nowId ts rts r =
        [Step.setAsking true,
         Step.appendConvMessage (processingPlaceholder s.question ts),
         Step.clearQuestion,
         Step.post ("http://localhost:8001/query/" ++ cid)
           { question := s.question, document_id := s.documentId, document_type := "general" }]
        ++ (match r with
            | .ok d => [Step.resolveConvSuccess d.answer d.task_type rts]
            | .err e => [Step.resolveConvError (formatQueryError e)])
        ++ [Step.setAsking false]
      ∧ (runSteps s ((handleAskSteps s nowId ts rts r).take 4)).conversationMessages
          = s.conversationMessages ++ [processingPlaceholder s.question ts]
      ∧ (runSteps s ((handleAskSteps s nowId ts rts r).take 4)).question = "")
    ∧ (s.activeConversationId = none →
      handleAskSteps s nowId ts rts r =
        [Step.setAsking true,
         Step.appendHistory
           { id := nowId, question := s.question, answer := "⏳ Processing..." },
         Step.clearQuestion,
         Step.post "http://localhost:8001/query"
           { question := s.question, document_id := s.documentId, document_type := "general" }]
        ++ (match r with
            | .ok d => [Step.resolveHistory nowId d.answer]
            | .err e => [Step.resolveHistory nowId (formatQueryError e)])
        ++ [Step.setAsking false]
      ∧ (runSteps s ((handleAskSteps s nowId ts rts r).take 4)).history
          = s.history
            ++ [{ id := nowId, question := s.question, answer := "⏳ Processing..." }]
      ∧ (runSteps s ((handleAskSteps s nowId ts rts r).take 4)).question = "") := by
  have hcond : ¬(s.question = "" ∨ s.documentId = "") := by simp [hq, hd]
  constructor
  · intro cid ha
    refine ⟨?_, ?_, ?_⟩ <;>
      cases r <;>
      simp [handleAskSteps, hcond, ha, queryEndpoint, runSteps, runStep]
  · intro ha
    refine ⟨?_, ?_, ?_⟩ <;>
      cases r <;>
      simp [handleAskSteps, hcond, ha, queryEndpoint, runSteps, runStep]

/-- C2 witness: a concrete submission in conversation mode and one in
unfiled mode, both against a concrete successful backend response. -/
theorem handleAsk_placeholder_before_resolution_witness :
    baseState.question ≠ "" ∧ baseState.documentId ≠ ""
    ∧ baseState.activeConversationId = some "c1"
    ∧ (runSteps baseState ((handleAskSteps baseState 7 "t1" "t2"
          (AxiosResult.ok { answer := "Normal", task_type := "translation" })).take 4)).conversationMessages
        = baseState.conversationMessages
          ++ [processingPlaceholder baseState.question "t1"]
    ∧ ({ baseState with activeConversationId := none } : AppState).activeConversationId = none
    ∧ (runSteps { baseState with activeConversationId := none }
          ((handleAskSteps { baseState with activeConversationId := none } 7 "t1" "t2"
            (AxiosResult.ok { answer := "Normal", task_type := "translation" })).take 4)).history
        = baseState.history
          ++ [{ id := 7, question := baseState.question, answer := "⏳ Processing..." }] :=
  ⟨by decide, by decide, rfl,
    ((handleAsk_placeholder_before_resolution baseState 7 "t1" "t2"
      (AxiosResult.ok { answer := "Normal", task_type := "translation" })
      (by decide) (by decide)).1 "c1" rfl).2.1,
    rfl,
    ((handleAsk_placeholder_before_resolution { baseState with activeConversationId := none }
      7 "t1" "t2" (AxiosResult.ok { answer := "Normal", task_type := "translation" })
      (by decide) (by decide)).2 rfl).2.1⟩

/-- C3: `createNewConversation` with a non-empty trimmed title and a
backend-acknowledged creation (`status: "success"`) posts
`{title, document_type: "general"}`, inserts the new conversation at
the head (so the list grows by exactly one), closes the modal, clears
the input, and makes the new conversation active. -/
theorem createNewConversation_success_spec (s : AppState) (conv : Conversation)
    (h : jsTrim s.newTitle ≠ "") :
    createNewConversation s (AxiosResult.ok { status := "success", conversation := conv })
      = (some { title := s.newTitle, document_type := "general" },
         { s with conversations := conv :: s.conversations,
                  showModal := false, newTitle := "",
                  activeConversationId := some conv.id,
                  history := [], conversationMessages := [] })
    ∧ (createNewConversation s
        (AxiosResult.ok { status := "success", conversation := conv })).2.conversations.length
        = s.conversations.length + 1
    ∧ (createNewConversation s
        (AxiosResult.ok { status := "success", conversation := conv })).2.conversations.head?
        = some conv
    ∧ (createNewConversation s
        (AxiosResult.ok { status := "success", conversation := conv })).2.activeConversationId
        = some conv.id := by
  refine ⟨?_, ?_, ?_, ?_⟩ <;> simp [createNewConversation, h]

/-- C3 witness at a concrete state. -/
theorem createNewConversation_success_spec_witness :
    jsTrim baseState.newTitle ≠ ""
    ∧ (createNewConversation baseState
        (AxiosResult.ok { status := "success", conversation := sampleConv })).2.conversations.length
        = baseState.conversations.length + 1 :=
  ⟨by decide, (createNewConversation_success_spec baseState sampleConv (by decide)).2.1⟩

/-- C4, counterexample.  In `FinalApp`, `handleAnalyze`'s network
request (step index 2 of its statement sequence) goes to
`queryEndpoint`, i.e. the question endpoint `/query/{id}` (or `/query`
with no active conversation) — not to the analysis endpoint
`/analyze` as the claim states. -/
theorem handleAnalyze_targets_query_endpoint :
    (handleAnalyzeSteps baseState 7 "t0"
        (AxiosResult.ok { answer := "A", task_type := "analysis" })).get? 2
      = some (Step.post (queryEndpoint (some "c1"))
          { question := "Provide a comprehensive analysis of this document",
            document_id := "doc1", document_type := "general" })
    ∧ queryEndpoint (some "c1") = "http://localhost:8001/query/c1"
    ∧ queryEndpoint (some "c1") ≠ "http://localhost:8001/analyze"
    ∧ (handleAnalyzeSteps { baseState with activeConversationId := none } 7 "t0"
        (AxiosResult.ok { answer := "A", task_type := "analysis" })).get? 2
      = some (Step.post "http://localhost:8001/query"
          { question := "Provide a comprehensive analysis of this document",
            document_id := "doc1", document_type := "general" }) :=
  ⟨rfl, rfl, by decide, rfl⟩

/-- C4 (amended): `FinalApp`'s `handleAnalyze` follows the same
two-phase protocol as a question exchange and always sends the fixed
synthetic question string, but it targets the same question endpoint
(`queryEndpoint`) as `handleAsk`, not an analysis endpoint; the
`/analyze` endpoint is targeted only by the `part_003` variant, whose
request body is `{policy_id}` with no question string. -/
theorem handleAnalyze_protocol_spec (s : AppState) (nowId : Nat) (ts : String)
    (r : AxiosResult QueryResponse) (cid : String)
    (hd : s.documentId ≠ "") (ha : s.activeConversationId = some cid) :
    handleAnalyzeSteps s nowId ts r =
      [Step.setAnalyzing true,
       Step.appendConvMessage
         { question := "🔍 Comprehensive Analysis", answer := "⏳ Analyzing document...",
           task_type := "analysis", timestamp := ts },
       Step.post (queryEndpoint (some cid))
         { question := "Provide a comprehensive analysis of this document",
           document_id := s.documentId, document_type := "general" }]
      ++ (match r with
          | .ok d => [Step.resolveConvAnalysisSuccess d.answer d.task_type]
          | .err e => [Step.resolveConvError (formatAnalyzeError e)])
      ++ [Step.setAnalyzing false]
    ∧ (∀ (p : PolicyAppState) (r2 : AxiosResult AnalyzeResponse), p.policyId ≠ "" →
        (appHandleAnalyze p r2).1
          = some ("http://localhost:8001/analyze", { policy_id := p.policyId })) := by
  constructor
  · cases r <;> simp [handleAnalyzeSteps, hd, ha]
  · intro p r2 hp
    cases r2 <;> simp [appHandleAnalyze, hp]

/-- C4 witness: concrete instances for both conjuncts. -/
theorem handleAnalyze_protocol_spec_witness :
    baseState.documentId ≠ ""
    ∧ ("p1" : String) ≠ ""
    ∧ (appHandleAnalyze
        { answer := "", originalSections := [], taskType := "", policyId := "p1",
          analyzing := false }
        (AxiosResult.ok { answer := "A", task_type := "analysis",
                          original_sections := none })).1
        = some ("http://localhost:8001/analyze", { policy_id := "p1" }) :=
  ⟨by decide, by decide,
    (handleAnalyze_protocol_spec baseState 7 "t0"
        (AxiosResult.ok { answer := "A", task_type := "analysis" }) "c1"
        (by decide) rfl).2
      { answer := "", originalSections := [], taskType := "", policyId := "p1",
        analyzing := false }
      (AxiosResult.ok { answer := "A", task_type := "analysis", original_sections := none })
      (by decide)⟩

/-- C5: validation failures are rejected before any network activity
and mutate nothing.  `createNewConversation` with an empty trimmed
title returns no request and the state unchanged;
`handleAsk` with an empty question or no document id produces an empty
statement sequence (so no placeholder, no request) and leaves the
state unchanged. -/
theorem validation_rejected_before_network (s : AppState) (nowId : Nat)
    (ts rts : String) (r : AxiosResult QueryResponse) (rc : AxiosResult CreateResponse) :
    (jsTrim s.newTitle = "" → createNewConversation s rc = (none, s))
    ∧ (s.question = "" ∨ s.documentId = "" →
        handleAskSteps s nowId ts rts r = [] ∧ handleAsk s nowId ts rts r = s) := by
  constructor
  · intro h
    simp [createNewConversation, h]
  · intro h
    constructor <;> simp [handleAsk, handleAskSteps, h, runSteps]

/-- C5 witness: an all-whitespace title and an empty question at a
concrete state. -/
theorem validation_rejected_before_network_witness :
    jsTrim "   " = ""
    ∧ createNewConversation { baseState with newTitle := "   " }
        (AxiosResult.ok { status := "success", conversation := sampleConv })
        = (none, { baseState with newTitle := "   " })
    ∧ handleAskSteps { baseState with question := "" } 7 "t1" "t2"
        (AxiosResult.ok { answer := "A", task_type := "translation" }) = [] :=
  ⟨by decide,
    (validation_rejected_before_network { baseState with newTitle := "   " } 7 "t1" "t2"
        (AxiosResult.ok { answer := "A", task_type := "translation" })
        (AxiosResult.ok { status := "success", conversation := sampleConv })).1 (by decide),
    ((validation_rejected_before_network { baseState with question := "" } 7 "t1" "t2"
        (AxiosResult.ok { answer := "A", task_type := "translation" })
        (AxiosResult.ok { status := "success", conversation := sampleConv })).2
      (Or.inl rfl)).1⟩

/-- C6: selecting a conversation whose messages the backend returns
with `status: "success"` replaces `conversationMessages` wholesale with
the returned list; selecting null resets `conversationMessages` to
empty.  No binder here is a hypothesis: the successful response shape
is part of the statement. -/
theorem handleConversationSelect_spec (s : AppState) (cid : String)
    (ms : List Message) (r : AxiosResult MessagesResponse) :
    handleConversationSelect s (some cid)
        (AxiosResult.ok { status := "success", messages := ms })
      = { s with activeConversationId := some cid, history := [],
                 conversationMessages := ms }
    ∧ handleConversationSelect s none r
      = { s with activeConversationId := none, history := [],
                 conversationMessages := [] } := by
  constructor <;>
    simp [handleConversationSelect, loadConversationMessages, clearActiveSelection]

/-- C7: deleting the active conversation after a confirmed intent and a
successful backend DELETE removes it from the conversation list, clears
the active selection, and empties the active messages. -/
theorem deleteConversation_active_spec (s : AppState) (cid : String)
    (h : s.activeConversationId = some cid) :
    deleteConversation s true cid (AxiosResult.ok ())
      = { s with conversations := s.conversations.filter (fun c => c.id ≠ cid),
                 activeConversationId := none, history := [],
                 conversationMessages := [] }
    ∧ ∀ c ∈ (deleteConversation s true cid (AxiosResult.ok ())).conversations,
        c.id ≠ cid := by
  have h1 : deleteConversation s true cid (AxiosResult.ok ())
      = { s with conversations := s.conversations.filter (fun c => c.id ≠ cid),
                 activeConversationId := none, history := [],
                 conversationMessages := [] } := by
    simp [deleteConversation, h, clearActiveSelection]
  refine ⟨h1, ?_⟩
  rw [h1]
  intro c hc
  have := (List.mem_filter.mp hc).2
  simpa using this

/-- C7 witness at the concrete base state, whose active conversation is
`"c1"`. -/
theorem deleteConversation_active_spec_witness :
    baseState.activeConversationId = some "c1"
    ∧ deleteConversation baseState true "c1" (AxiosResult.ok ())
      = { baseState with
            conversations := baseState.conversations.filter (fun c => c.id ≠ "c1"),
            activeConversationId := none, history := [],
            conversationMessages := [] } :=
  ⟨rfl, (deleteConversation_active_spec baseState "c1" rfl).1⟩

/-- C8: when the network call of a submitted exchange fails, in either
routing mode, the just-appended placeholder's `answer` becomes
`formatQueryError e`: in conversation mode the last thread message is
patched, in unfiled mode the `history` entry keyed by the exchange's
`Date.now()` id is patched (assuming that id is fresh, as a clock value
for the newest entry is).  The error string is never empty, equals
`"❌ Error: " ++ detail` when a non-empty backend detail is present and
`"❌ Error: " ++ err.message` when the detail is absent; the handler
issues exactly one request (no retry) and is a total function (the
`catch` swallows the error, so no exception reaches the rendering
layer). -/
theorem handleAsk_failure_spec (s : AppState) (nowId : Nat) (ts rts : String)
    (e : AxiosError)
    (hq : s.question ≠ "") (hd : s.documentId ≠ "") :
    (∀ cid : String, s.activeConversationId = some cid →
      (handleAsk s nowId ts rts (AxiosResult.err e)).conversationMessages
        = s.conversationMessages
          ++ [{ question := s.question, answer := formatQueryError e,
                task_type := "unknown", timestamp := ts }])
    ∧ (s.activeConversationId = none → (∀ h2 ∈ s.history, h2.id ≠ nowId) →
      (handleAsk s nowId ts rts (AxiosResult.err e)).history
        = s.history
          ++ [{ id := nowId, question := s.question, answer := formatQueryError e }])
    ∧ formatQueryError e ≠ ""
    ∧ (e.detail = none → formatQueryError e = "❌ Error: " ++ e.message)
    ∧ (∀ d : String, e.detail = some d → d ≠ "" → formatQueryError e = "❌ Error: " ++ d)
    ∧ ((handleAskSteps s nowId ts rts (AxiosResult.err e)).countP Step.isPost) = 1 := by
  have hcond : ¬(s.question = "" ∨ s.documentId = "") := by simp [hq, hd]
  refine ⟨?_, ?_, ?_, ?_, ?_, ?_⟩
  · intro cid ha
    have hsteps : handleAskSteps s nowId ts rts (AxiosResult.err e) =
        [Step.setAsking true,
         Step.appendConvMessage (processingPlaceholder s.question ts),
         Step.clearQuestion,
         Step.post (queryEndpoint (some cid))
           { question := s.question, document_id := s.documentId, document_type := "general" },
         Step.resolveConvError (formatQueryError e),
         Step.setAsking false] := by
      simp [handleAskSteps, hcond, ha]
    show (runSteps s (handleAskSteps s nowId ts rts (AxiosResult.err e))).conversationMessages = _
    rw [hsteps]
    simp only [runSteps, List.foldl, runStep]
    rw [resolveLastMessageError_concat]
    rfl
  · intro ha hfresh
    have hsteps : handleAskSteps s nowId ts rts (AxiosResult.err e) =
        [Step.setAsking true,
         Step.appendHistory
           { id := nowId, question := s.question, answer := "⏳ Processing..." },
         Step.clearQuestion,
         Step.post "http://localhost:8001/query"
           { question := s.question, document_id := s.documentId, document_type := "general" },
         Step.resolveHistory nowId (formatQueryError e),
         Step.setAsking false] := by
      simp [handleAskSteps, hcond, ha, queryEndpoint]
    show (runSteps s (handleAskSteps s nowId ts rts (AxiosResult.err e))).history = _
    rw [hsteps]
    simp only [runSteps, List.foldl, runStep]
    rw [resolveHistoryEntry_concat s.history
      { id := nowId, question := s.question, answer := "⏳ Processing..." }
      (formatQueryError e) hfresh]
  · intro h
    have h2 := congrArg String.length h
    rw [formatQueryError, String.length_append] at h2
    have h3 : ("❌ Error: ").length = 9 := by decide
    have h0 : ("" : String).length = 0 := by decide
    rw [h3, h0] at h2
    omega
  · intro h
    simp [formatQueryError, jsOr, h]
  · intro d hde hdne
    simp [formatQueryError, jsOr, hde, hdne]
  · rcases hms : s.activeConversationId with _ | cid <;>
      · simp only [handleAskSteps, if_neg hcond, hms]
        rfl

/-- C8 witness: a failing call with a backend detail present, at the
concrete base state in conversation mode and at its unfiled variant. -/
theorem handleAsk_failure_spec_witness :
    baseState.question ≠ "" ∧ baseState.documentId ≠ ""
    ∧ baseState.activeConversationId = some "c1"
    ∧ formatQueryError { detail := some "model offline", message := "Network Error" } ≠ ""
    ∧ (handleAsk baseState 7 "t1" "t2"
        (AxiosResult.err { detail := some "model offline", message := "Network Error" })).conversationMessages
      = baseState.conversationMessages
        ++ [{ question := baseState.question,
              answer := formatQueryError { detail := some "model offline",
                                           message := "Network Error" },
              task_type := "unknown", timestamp := "t1" }]
    ∧ (handleAsk { baseState with activeConversationId := none } 7 "t1" "t2"
        (AxiosResult.err { detail := some "model offline", message := "Network Error" })).history
      = baseState.history
        ++ [{ id := 7, question := baseState.question,
              answer := formatQueryError { detail := some "model offline",
                                           message := "Network Error" } }] :=
  ⟨by decide, by decide, rfl,
    (handleAsk_failure_spec baseState 7 "t1" "t2"
      { detail := some "model offline", message := "Network Error" }
      (by decide) (by decide)).2.2.1,
    ((handleAsk_failure_spec baseState 7 "t1" "t2"
      { detail := some "model offline", message := "Network Error" }
      (by decide) (by decide)).1 "c1" rfl),
    ((handleAsk_failure_spec { baseState with activeConversationId := none } 7 "t1" "t2"
      { detail := some "model offline", message := "Network Error" }
      (by decide) (by decide)).2.1 rfl (by simp [baseState]))⟩

/-- C9: `handleTitleSave` with an empty trimmed title is a local no-op
— no PUT request, conversations (hence the stored title) unchanged,
edit mode cancelled; with a non-empty trimmed title and a successful
PUT it issues `{title: trimmed}` and patches exactly the title of the
conversation with that id, in place: the list keeps its length and, at
every position, every conversation other than `cid` is unchanged in
all fields. -/
theorem handleTitleSave_spec (s : AppState) (cid : String) (r : AxiosResult Unit) :
    (jsTrim s.newTitle = "" →
      handleTitleSave s cid r = (none, { s with editingId := none, newTitle := "" }))
    ∧ (jsTrim s.newTitle ≠ "" →
        (handleTitleSave s cid (AxiosResult.ok ())).1 = some { title := jsTrim s.newTitle }
        ∧ (handleTitleSave s cid (AxiosResult.ok ())).2.conversations.length
            = s.conversations.length
        ∧ (∀ i : Nat, ((handleTitleSave s cid (AxiosResult.ok ())).2.conversations)[i]?
            = (s.conversations[i]?).map
                (fun c => if c.id = cid then { c with title := jsTrim s.newTitle } else c))
        ∧ (handleTitleSave s cid (AxiosResult.ok ())).2.editingId = none) := by
  constructor
  · intro h
    simp [handleTitleSave, h]
  · intro h
    refine ⟨?_, ?_, ?_, ?_⟩
    · simp [handleTitleSave, h]
    · simp [handleTitleSave, h, updateConversationTitle]
    · intro i
      simp [handleTitleSave, h, updateConversationTitle, List.getElem?_map]
    · simp [handleTitleSave, h, updateConversationTitle]

/-- C9 witness: a concrete rename at the base state, whose `newTitle`
is `"Lab Notes"`. -/
theorem handleTitleSave_spec_witness :
    jsTrim baseState.newTitle ≠ ""
    ∧ (handleTitleSave baseState "c1" (AxiosResult.ok ())).1
        = some { title := jsTrim baseState.newTitle }
    ∧ (handleTitleSave baseState "c1" (AxiosResult.ok ())).2.editingId = none :=
  ⟨by decide,
    ((handleTitleSave_spec baseState "c1" (AxiosResult.ok ())).2 (by decide)).1,
    ((handleTitleSave_spec baseState "c1" (AxiosResult.ok ())).2 (by decide)).2.2.2⟩

/-- C10: a 2xx response whose body's `status` is not `"success"` leaves
the store unchanged: `loadConversations` keeps the existing list (only
the `finally` clause's loading flag is written), `createNewConversation`
issues its POST but inserts nothing, activates nothing and keeps the
modal and its title input as they were, and `loadConversationMessages`
keeps `conversationMessages` at its prior value. -/
theorem nonSuccess_leaves_store (s : AppState) (st : String)
    (convs : List Conversation) (conv : Conversation) (ms : List Message)
    (h : st ≠ "success") (ht : jsTrim s.newTitle ≠ "") :
    loadConversations s (AxiosResult.ok { status := st, conversations := convs })
      = { s with loading := false }
    ∧ createNewConversation s (AxiosResult.ok { status := st, conversation := conv })
      = (some { title := s.newTitle, document_type := "general" }, s)
    ∧ loadConversationMessages s (AxiosResult.ok { status := st, messages := ms }) = s := by
  refine ⟨?_, ?_, ?_⟩ <;>
    simp [loadConversations, createNewConversation, loadConversationMessages, h, ht]

/-- C10 witness: a concrete `status: "error"` body at the base state. -/
theorem nonSuccess_leaves_store_witness :
    ("error" : String) ≠ "success"
    ∧ jsTrim baseState.newTitle ≠ ""
    ∧ loadConversationMessages baseState
        (AxiosResult.ok { status := "error", messages := [] }) = baseState :=
  ⟨by decide, by decide,
    (nonSuccess_leaves_store baseState "error" [] sampleConv []
      (by decide) (by decide)).2.2⟩
